import Mathlib

/-!
Verification of the GeoTable pipeline specified for the py_gis_twdb
repository.  The repository itself is an instructional notebook whose
operations are direct calls into a vendor GIS library; the specification
(section 4, "Component Design") gives the contracts of the minimal
tabular-geometry pipeline those calls exercise.  The definitions below are
modelled from the spec: the vendor implementation (Loader, Writer,
Reprojector, Buffer Operator, Spatial Predicate Filter) is not part of the
repository's sources, only its call sites in src/sedf_intro/sedf_intro.ipynb
are.
-/

namespace GeoPipeline

/-- Modelled from the spec: a scalar value stored in a record column is a
number, a string, a date, or null (section 3, "Record").  Dates are strings
in the notebook's data, so the date case is subsumed by `str`. -/
inductive Value where
  | num (q : ℚ)
  | str (s : String)
  | null
  deriving DecidableEq, Repr

/-- A coordinate pair.  Coordinates are modelled as exact rationals. -/
abbrev Coord := ℚ × ℚ

/-- Modelled from the spec: a Geometry is a tagged variant over
Point, LineString, Polygon, MultiPolygon, each carrying an ordered
sequence of coordinate pairs, or nested sequences for polygons with
holes (section 3, "Geometry"). -/
inductive Geometry where
  | point (p : Coord)
  | lineString (ps : List Coord)
  | polygon (rings : List (List Coord))
  | multiPolygon (polys : List (List (List Coord)))
  deriving DecidableEq, Repr

/-- Modelled from the spec: an identifier (an EPSG/WKID code) plus unit
metadata, degrees versus linear units (section 3, "CoordinateSystem"). -/
structure CoordinateSystem where
  wkid : ℕ
  isGeographic : Bool
  deriving DecidableEq, Repr

/-- Modelled from the spec: a Record is a mapping from column name to a
scalar value, plus an optional Geometry stored under a reserved column
name (section 3, "Record").  The reserved geometry column is kept as the
dedicated `shape` field. -/
structure Record where
  attrs : List (String × Value)
  shape : Option Geometry
  deriving DecidableEq, Repr

/-- Modelled from the spec: a GeoTable is an ordered sequence of Records
plus a CoordinateSystem tag (section 3, "GeoTable"); the ordered column
names are carried explicitly so that dropping columns is observable. -/
structure GeoTable where
  columns : List String
  rows : List Record
  cs : CoordinateSystem
  deriving DecidableEq, Repr

/-- Value of a named column in a record; `null` when the column is absent. -/
def colVal (r : Record) (c : String) : Value :=
  match r.attrs.find? (fun a => a.1 == c) with
  | some a => a.2
  | none => .null

/-- Drop the named columns from one record. -/
def dropRecord (cols : List String) (r : Record) : Record :=
  { r with attrs := r.attrs.filter (fun a => !(cols.contains a.1)) }

/-- Modelled from the spec: the column filter drops a set of column names
and produces a new GeoTable containing only the retained columns
(section 4.2); the notebook call site is `sedf.drop(columns=[...])`. -/
def dropColumns (cols : List String) (t : GeoTable) : GeoTable :=
  { t with
      columns := t.columns.filter (fun c => !(cols.contains c)),
      rows := t.rows.map (dropRecord cols) }

/-- Modelled from the spec: the row filter keeps the rows satisfying a
boolean predicate over a Record, preserving the order of the remaining
rows (section 4.2); the notebook call site is `sedf[sedf[col] ...]`. -/
def filterRows (p : Record → Bool) (t : GeoTable) : GeoTable :=
  { t with rows := t.rows.filter p }

/-- The points carried by a geometry, as the ordered list of its
coordinate pairs. -/
def geomPoints : Geometry → List Coord
  | .point p => [p]
  | .lineString ps => ps
  | .polygon rings => rings.flatten
  | .multiPolygon polys => (polys.map List.flatten).flatten

/-- The points of a record's geometry; a record with no geometry
contributes the empty set of points. -/
def recPoints (r : Record) : List Coord :=
  match r.shape with
  | some g => geomPoints g
  | none => []

/-- Modelled from the spec: the glossary defines `disjoint` as the spatial
predicate testing that two geometries share no points. -/
def disjointRec (r : Record) (ref : Geometry) : Bool :=
  (recPoints r).all (fun p => !((geomPoints ref).contains p))

/-- Modelled from the spec: the glossary defines `intersects` as the
spatial predicate testing that two geometries share any points. -/
def intersectsRec (r : Record) (ref : Geometry) : Bool :=
  (recPoints r).any (fun p => (geomPoints ref).contains p)

/-- The predicate kinds of the spatial predicate filter (spec 4.5). -/
inductive PredKind where
  | intersects
  | disjoint
  deriving DecidableEq, Repr

/-- Evaluate a predicate kind on a record against a reference geometry. -/
def evalPred : PredKind → Record → Geometry → Bool
  | .intersects, r, ref => intersectsRec r ref
  | .disjoint, r, ref => disjointRec r ref

/-- Modelled from the spec: the spatial predicate filter returns the
subsequence of records whose geometry satisfies the predicate against the
reference geometry, preserving original order (section 4.5). -/
def predicateFilter (k : PredKind) (ref : Geometry) (t : GeoTable) : GeoTable :=
  filterRows (fun r => evalPred k r ref) t

theorem intersectsRec_eq_not_disjointRec (r : Record) (ref : Geometry) :
    intersectsRec r ref = !(disjointRec r ref) := by
  simp only [intersectsRec, disjointRec]
  exact List.any_eq_not_all_not _ _

/-- C1: for every GeoTable and reference geometry, filtering with the
`disjoint` predicate and with the `intersects` predicate against the same
reference geometry partitions the table's rows into two disjoint,
exhaustive subsets: the lengths of the two results add up to the table's
row count and every row belongs to exactly one of them; moreover the
notebook's query selecting the rows where `disjoint(reference) == False`
yields exactly the `intersects` filter. -/
theorem disjoint_intersects_partition (t : GeoTable) (ref : Geometry) :
    (predicateFilter .disjoint ref t).rows.length
        + (predicateFilter .intersects ref t).rows.length = t.rows.length
    ∧ (∀ r ∈ t.rows,
        (r ∈ (predicateFilter .disjoint ref t).rows
            ∧ r ∉ (predicateFilter .intersects ref t).rows)
        ∨ (r ∉ (predicateFilter .disjoint ref t).rows
            ∧ r ∈ (predicateFilter .intersects ref t).rows))
    ∧ filterRows (fun r => disjointRec r ref == false) t
        = predicateFilter .intersects ref t := by
  have hcomp : ∀ r : Record, intersectsRec r ref = !(disjointRec r ref) :=
    fun r => intersectsRec_eq_not_disjointRec r ref
  refine ⟨?_, ?_, ?_⟩
  · simp only [predicateFilter, filterRows, evalPred]
    have h1 : t.rows.filter (fun r => intersectsRec r ref)
        = t.rows.filter (fun r => !(disjointRec r ref)) :=
      List.filter_congr fun r _ => hcomp r
    rw [h1]
    have h2 := (List.filter_append_perm (fun r => disjointRec r ref) t.rows).length_eq
    simpa using h2
  · intro r hr
    cases h : disjointRec r ref with
    | true =>
        left
        simp [predicateFilter, filterRows, List.mem_filter, evalPred, hcomp, h, hr]
    | false =>
        right
        simp [predicateFilter, filterRows, List.mem_filter, evalPred, hcomp, h, hr]
  · cases t with
    | mk cols rows cs =>
        simp only [predicateFilter, filterRows, evalPred, GeoTable.mk.injEq,
          true_and, and_true]
        exact List.filter_congr fun r _ => by
          cases h : disjointRec r ref <;> simp [hcomp, h]

/-- A sample coordinate system in linear units (UTM 54N, as in the
notebook). -/
def utm54N : CoordinateSystem := ⟨32654, false⟩

/-- A sample reference geometry: a square polygon ring. -/
def sampleRef : Geometry := .polygon [[(0, 0), (2, 0), (2, 2), (0, 2)]]

/-- A sample two-row table of point records. -/
def sampleQuakeT : GeoTable :=
  { columns := ["Magnitude", "SHAPE"],
    rows :=
      [ { attrs := [("Magnitude", .num 5)], shape := some (.point (1, 1)) },
        { attrs := [("Magnitude", .num 8)], shape := some (.point (0, 0)) } ],
    cs := utm54N }

/-- Witness for C1 at a concrete table and reference geometry. -/
theorem disjoint_intersects_partition_witness :
    (predicateFilter .disjoint sampleRef sampleQuakeT).rows.length
        + (predicateFilter .intersects sampleRef sampleQuakeT).rows.length
        = sampleQuakeT.rows.length
    ∧ (∀ r ∈ sampleQuakeT.rows,
        (r ∈ (predicateFilter .disjoint sampleRef sampleQuakeT).rows
            ∧ r ∉ (predicateFilter .intersects sampleRef sampleQuakeT).rows)
        ∨ (r ∉ (predicateFilter .disjoint sampleRef sampleQuakeT).rows
            ∧ r ∈ (predicateFilter .intersects sampleRef sampleQuakeT).rows))
    ∧ filterRows (fun r => disjointRec r sampleRef == false) sampleQuakeT
        = predicateFilter .intersects sampleRef sampleQuakeT :=
  disjoint_intersects_partition sampleQuakeT sampleRef

/-- A notebook environment: named bindings to GeoTables.  Operations that
the notebook performs in place are modelled as explicit updates of this
environment, so that frame properties (which bindings an operation leaves
untouched) are expressible. -/
abbrev Env := List (String × GeoTable)

/-- Look a binding up in an environment (first binding wins). -/
def envGet : Env → String → Option GeoTable
  | [], _ => none
  | e :: es, n => if e.1 = n then some e.2 else envGet es n

/-- Bind a name to a table in an environment. -/
def envSet (e : Env) (n : String) (t : GeoTable) : Env := (n, t) :: e

/-- Mutate the table bound to a name in place, as the notebook's
`inplace=True` and column-assignment operations do. -/
def envMutate (e : Env) (n : String) (f : GeoTable → GeoTable) : Env :=
  match envGet e n with
  | some t => envSet e n (f t)
  | none => e

theorem envGet_envSet_same (e : Env) (n : String) (t : GeoTable) :
    envGet (envSet e n t) n = some t := by
  simp [envGet, envSet]

theorem envGet_envSet_ne (e : Env) (n m : String) (t : GeoTable)
    (h : m ≠ n) : envGet (envSet e m t) n = envGet e n := by
  simp [envGet, envSet, h]

/-- C2: the column-drop and row-filter operations are pure functions: an
input table bound elsewhere in the environment is left unmodified by
performing the operation and binding its result to another name, the rows
of the column-dropped table are the input rows in the same order and
number, and the rows retained by the row filter form a subsequence of the
input rows, hence appear in the same relative order. -/
theorem drop_filter_pure (e : Env) (name other : String) (t : GeoTable)
    (cols : List String) (p : Record → Bool)
    (hne : other ≠ name) (hget : envGet e name = some t) :
    envGet (envSet e other (dropColumns cols t)) name = some t
    ∧ envGet (envSet e other (filterRows p t)) name = some t
    ∧ (dropColumns cols t).rows = t.rows.map (dropRecord cols)
    ∧ List.Sublist (filterRows p t).rows t.rows := by
  refine ⟨?_, ?_, rfl, List.filter_sublist t.rows⟩
  · rw [envGet_envSet_ne _ _ _ _ hne]; exact hget
  · rw [envGet_envSet_ne _ _ _ _ hne]; exact hget

/-- Witness for C2 at a concrete environment, table, column list and
predicate. -/
theorem drop_filter_pure_witness :
    (("tmp" : String) ≠ "sedf")
    ∧ (envGet (envSet [("sedf", sampleQuakeT)] "tmp"
          (dropColumns ["Magnitude"] sampleQuakeT)) "sedf" = some sampleQuakeT
        ∧ envGet (envSet [("sedf", sampleQuakeT)] "tmp"
            (filterRows (fun _ => true) sampleQuakeT)) "sedf" = some sampleQuakeT
        ∧ (dropColumns ["Magnitude"] sampleQuakeT).rows
            = sampleQuakeT.rows.map (dropRecord ["Magnitude"])
        ∧ List.Sublist (filterRows (fun _ => true) sampleQuakeT).rows
            sampleQuakeT.rows) :=
  ⟨by decide,
    drop_filter_pure [("sedf", sampleQuakeT)] "sedf" "tmp" sampleQuakeT
      ["Magnitude"] (fun _ => true) (by decide) rfl⟩

/-- C3: dropping the columns ["a","b"] from a table whose column set is
["a","b","c","SHAPE"] yields a table whose column set is exactly
["c","SHAPE"] and whose row count equals the input's row count. -/
theorem dropColumns_scenario (t : GeoTable)
    (h : t.columns = ["a", "b", "c", "SHAPE"]) :
    (dropColumns ["a", "b"] t).columns = ["c", "SHAPE"]
    ∧ (dropColumns ["a", "b"] t).rows.length = t.rows.length := by
  constructor
  · have hc : (dropColumns ["a", "b"] t).columns
        = t.columns.filter (fun c => !((["a", "b"] : List String).contains c)) :=
      rfl
    rw [hc, h]
    decide
  · simp [dropColumns]

/-- A sample table with columns ["a","b","c","SHAPE"] and one row. -/
def sampleABC : GeoTable :=
  { columns := ["a", "b", "c", "SHAPE"],
    rows := [{ attrs := [("a", .num 1), ("b", .num 2), ("c", .num 3)],
               shape := some (.point (0, 0)) }],
    cs := utm54N }

/-- Witness for C3 at a concrete table. -/
theorem dropColumns_scenario_witness :
    sampleABC.columns = ["a", "b", "c", "SHAPE"]
    ∧ ((dropColumns ["a", "b"] sampleABC).columns = ["c", "SHAPE"]
        ∧ (dropColumns ["a", "b"] sampleABC).rows.length
            = sampleABC.rows.length) :=
  ⟨rfl, dropColumns_scenario sampleABC rfl⟩

/-- Replace every geometry of a table by applying a geometric operation,
as the notebook's assignment into the SHAPE column does. -/
def replaceShapes (op : Geometry → Geometry) (t : GeoTable) : GeoTable :=
  { t with rows := t.rows.map (fun r => { r with shape := r.shape.map op }) }

/-- The `.copy()` of the notebook: the new binding holds its own table
value. -/
def copyTable (t : GeoTable) : GeoTable := t

/-- C10: binding "japan" to a copy of the filtered countries table and
then replacing the copy's geometry column in place leaves the source
binding "countries_proj" mapped to exactly the table it held before, so
its row count, column set, attribute values and geometries are all
unchanged. -/
theorem copy_buffer_frame (e : Env) (c : GeoTable) (op : Geometry → Geometry)
    (p : Record → Bool) (hget : envGet e "countries_proj" = some c) :
    envGet
      (envMutate (envSet e "japan" (copyTable (filterRows p c)))
        "japan" (replaceShapes op))
      "countries_proj" = some c := by
  have h1 : envGet (envSet e "japan" (copyTable (filterRows p c))) "japan"
      = some (copyTable (filterRows p c)) := envGet_envSet_same _ _ _
  rw [envMutate, h1]
  have hne : ("japan" : String) ≠ "countries_proj" := by decide
  rw [envGet_envSet_ne _ _ _ _ hne, envGet_envSet_ne _ _ _ _ hne]
  exact hget

/-- Witness for C10 at a concrete environment, table and operation. -/
theorem copy_buffer_frame_witness :
    envGet [("countries_proj", sampleABC)] "countries_proj" = some sampleABC
    ∧ envGet
        (envMutate
          (envSet [("countries_proj", sampleABC)] "japan"
            (copyTable (filterRows (fun _ => true) sampleABC)))
          "japan" (replaceShapes id))
        "countries_proj" = some sampleABC :=
  ⟨rfl, copy_buffer_frame [("countries_proj", sampleABC)] sampleABC id
    (fun _ => true) rfl⟩

/-- The notebook's magnitude filter predicate: Magnitude >= 8. -/
def magAtLeast8 (r : Record) : Bool :=
  match colVal r "Magnitude" with
  | .num q => decide (8 ≤ q)
  | _ => false

/-- C4: filtering a three-record table whose magnitude column holds the
values [5.0, 8.0, 6.5] with the predicate magnitude >= 8 yields exactly
one record, the record whose magnitude is 8.0. -/
theorem magnitude_filter_scenario (t : GeoTable)
    (h : t.rows.map (fun r => colVal r "Magnitude")
        = [.num 5, .num 8, .num (6.5 : ℚ)]) :
    ∃ r, (filterRows magAtLeast8 t).rows = [r]
      ∧ colVal r "Magnitude" = .num 8 := by
  obtain ⟨cols, rows, cs⟩ := t
  simp only at h
  cases rows with
  | nil => simp at h
  | cons r0 rest0 =>
  cases rest0 with
  | nil => simp at h
  | cons r1 rest1 =>
  cases rest1 with
  | nil => simp at h
  | cons r2 rest2 =>
  cases rest2 with
  | cons r3 rest3 => simp at h
  | nil =>
  simp only [List.map_cons, List.map_nil, List.cons.injEq, and_true] at h
  obtain ⟨h0, h1, h2⟩ := h
  have e0 : magAtLeast8 r0 = false := by
    unfold magAtLeast8; rw [h0]
    show decide ((8 : ℚ) ≤ 5) = false
    simp only [decide_eq_false_iff_not]; norm_num
  have e1 : magAtLeast8 r1 = true := by
    unfold magAtLeast8; rw [h1]
    show decide ((8 : ℚ) ≤ 8) = true
    simp
  have e2 : magAtLeast8 r2 = false := by
    unfold magAtLeast8; rw [h2]
    show decide ((8 : ℚ) ≤ 6.5) = false
    simp only [decide_eq_false_iff_not]; norm_num
  exact ⟨r1, by simp [filterRows, List.filter, e0, e1, e2], h1⟩

/-- A concrete three-record table of point records with magnitudes
5.0, 8.0 and 6.5. -/
def threeQuakes : GeoTable :=
  { columns := ["Magnitude", "SHAPE"],
    rows :=
      [ { attrs := [("Magnitude", .num 5)], shape := some (.point (139, 35)) },
        { attrs := [("Magnitude", .num 8)], shape := some (.point (140, 36)) },
        { attrs := [("Magnitude", .num (6.5 : ℚ))],
          shape := some (.point (141, 37)) } ],
    cs := utm54N }

/-- Witness for C4 at the concrete three-record table. -/
theorem magnitude_filter_scenario_witness :
    threeQuakes.rows.map (fun r => colVal r "Magnitude")
        = [.num 5, .num 8, .num (6.5 : ℚ)]
    ∧ ∃ r, (filterRows magAtLeast8 threeQuakes).rows = [r]
        ∧ colVal r "Magnitude" = .num 8 :=
  ⟨rfl, magnitude_filter_scenario threeQuakes rfl⟩

/-- Modelled from the spec: a stored vector file is shapefile-like, a
geometry plus attribute table (section 6): the ordered column names, the
coordinate system, and one row of attribute values in column order with
an optional geometry per record. -/
structure StoredFile where
  cols : List String
  cs : CoordinateSystem
  rows : List (List Value × Option Geometry)
  deriving DecidableEq, Repr

/-- Modelled from the spec: the Writer serializes all columns and
geometries of a GeoTable to a file (section 4.6); the notebook call site
is `japan_quakes.spatial.to_featureclass(outfile)`. -/
def writeTable (t : GeoTable) : StoredFile :=
  ⟨t.columns, t.cs,
    t.rows.map (fun r => (t.columns.map (colVal r), r.shape))⟩

/-- Modelled from the spec: the Loader produces a GeoTable from a stored
file (section 4.1); the notebook call site is
`pd.DataFrame.spatial.from_featureclass(path)`. -/
def loadTable (f : StoredFile) : GeoTable :=
  ⟨f.cols, f.rows.map (fun rv => ⟨f.cols.zip rv.1, rv.2⟩), f.cs⟩

/-- C6: writing a GeoTable with the Writer and reloading the result with
the Loader yields a table with the same row count, the same column set,
and geometries exactly equal to the originals (exact equality implies
equality within any floating-point tolerance). -/
theorem featureclass_roundtrip (t : GeoTable) :
    (loadTable (writeTable t)).rows.length = t.rows.length
    ∧ (loadTable (writeTable t)).columns = t.columns
    ∧ (loadTable (writeTable t)).rows.map Record.shape
        = t.rows.map Record.shape := by
  refine ⟨?_, rfl, ?_⟩
  · simp [loadTable, writeTable]
  · simp [loadTable, writeTable, List.map_map]

/-- The plane in which geometries live for the measure-theoretic
statements about buffering. -/
abbrev Plane := EuclideanSpace ℝ (Fin 2)

/-- Modelled from the spec: the glossary defines the buffer of a geometry
at distance d as the set of points within distance d of the input
geometry.  A geometry is taken extensionally as its set of points in the
plane, which covers every Polygon. -/
def bufferSet (d : ℝ) (g : Set Plane) : Set Plane :=
  {p | ∃ q ∈ g, dist p q ≤ d}

/-- The area of a plane region: its Lebesgue measure. -/
noncomputable def area (g : Set Plane) : ENNReal :=
  MeasureTheory.volume g

/-- C5: buffering a geometry by a non-negative distance never shrinks the
area: the buffered geometry contains the original, so its area is greater
than or equal to the original's. -/
theorem buffer_area_monotone (g : Set Plane) (d : ℝ) (hd : 0 ≤ d) :
    area g ≤ area (bufferSet d g) := by
  apply MeasureTheory.measure_mono
  intro p hp
  exact ⟨p, hp, by rw [dist_self]; exact hd⟩

/-- Witness for C5 at a concrete geometry and distance. -/
theorem buffer_area_monotone_witness :
    (0 : ℝ) ≤ 1 ∧ area ∅ ≤ area (bufferSet 1 ∅) :=
  ⟨by norm_num, buffer_area_monotone ∅ 1 (by norm_num)⟩

/-- Modelled from the spec: a coordinate system determines a point-by-point
transformation (section 4.3); it is modelled by its transformation to and
from a canonical earth frame. -/
structure Projection where
  toCanon : Coord → Coord
  fromCanon : Coord → Coord

/-- Apply a point transformation to every coordinate of a geometry. -/
def mapGeom (f : Coord → Coord) : Geometry → Geometry
  | .point p => .point (f p)
  | .lineString ps => .lineString (ps.map f)
  | .polygon rings => .polygon (rings.map (List.map f))
  | .multiPolygon polys => .multiPolygon (polys.map (List.map (List.map f)))

/-- Reproject one point from a source system into a target system through
the canonical frame. -/
def reprojectPoint (src tgt : Projection) (p : Coord) : Coord :=
  tgt.fromCanon (src.toCanon p)

/-- Modelled from the spec: the Reprojector produces a new GeoTable with
identical attribute columns and geometries transformed point-by-point
into the target system (section 4.3). -/
def reprojectTable (src tgt : Projection) (t : GeoTable) : GeoTable :=
  { t with
      rows := t.rows.map
        (fun r =>
          { r with shape := r.shape.map (mapGeom (reprojectPoint src tgt)) }) }

theorem mapGeom_mapGeom (f g : Coord → Coord) (x : Geometry) :
    mapGeom g (mapGeom f x) = mapGeom (fun p => g (f p)) x := by
  cases x <;> simp [mapGeom, List.map_map, Function.comp]

/-- C7: reprojecting a table to an intermediate system and then to a
target system yields exactly the geometries of reprojecting directly to
the target system, provided the intermediate system's transformation
loses no information (its round trip through the canonical frame is the
identity); exact equality implies equality within any floating-point
tolerance. -/
theorem reproject_composes (P0 P1 P2 : Projection) (t : GeoTable)
    (h : ∀ p, P1.toCanon (P1.fromCanon p) = p) :
    (reprojectTable P1 P2 (reprojectTable P0 P1 t)).rows.map Record.shape
      = (reprojectTable P0 P2 t).rows.map Record.shape := by
  have hfun : (fun p => reprojectPoint P1 P2 (reprojectPoint P0 P1 p))
      = reprojectPoint P0 P2 := by
    funext p
    simp [reprojectPoint, h]
  have hrows : (reprojectTable P1 P2 (reprojectTable P0 P1 t)).rows
      = (reprojectTable P0 P2 t).rows := by
    simp only [reprojectTable, List.map_map]
    apply List.map_congr_left
    intro r _
    simp only [Function.comp]
    cases hs : r.shape with
    | none => simp
    | some g => simp [mapGeom_mapGeom, hfun]
  rw [hrows]

/-- The identity projection: the canonical frame itself. -/
def idProjection : Projection := ⟨id, id⟩

/-- Witness for C7 at concrete projections and a concrete table. -/
theorem reproject_composes_witness :
    (∀ p : Coord, idProjection.toCanon (idProjection.fromCanon p) = p)
    ∧ (reprojectTable idProjection idProjection
          (reprojectTable idProjection idProjection threeQuakes)).rows.map
            Record.shape
        = (reprojectTable idProjection idProjection threeQuakes).rows.map
            Record.shape :=
  ⟨fun _ => rfl,
    reproject_composes idProjection idProjection idProjection threeQuakes
      fun _ => rfl⟩

/-- A file system: an association of paths to stored files (first binding
wins). -/
abbrev FileSys := List (String × StoredFile)

/-- Look a path up in a file system. -/
def fsGet : FileSys → String → Option StoredFile
  | [], _ => none
  | e :: fs, p => if e.1 = p then some e.2 else fsGet fs p

/-- Store a file at a path. -/
def fsSet (fs : FileSys) (p : String) (f : StoredFile) : FileSys :=
  (p, f) :: fs

/-- Remove every file stored at a path. -/
def fsRemove : FileSys → String → FileSys
  | [], _ => []
  | e :: fs, p => if e.1 = p then fsRemove fs p else e :: fsRemove fs p

/-- The Writer's error kind (spec section 7). -/
inductive WriteError where
  | ioFailure
  deriving DecidableEq, Repr

/-- The temporary location the Writer uses next to a destination path. -/
def tmpPath (dest : String) : String := dest ++ ".tmp"

/-- Modelled from the spec: the Writer serializes the whole table to a
temporary location and atomically renames it onto the destination only on
success; on I/O failure it fails with WriteError without touching the
destination (section 4.6).  The `ioOk` flag models whether the underlying
file I/O succeeds. -/
def toFeatureclass (fs : FileSys) (dest : String) (t : GeoTable)
    (ioOk : Bool) : Except WriteError Unit × FileSys :=
  if ioOk then
    let fs1 := fsSet fs (tmpPath dest) (writeTable t)
    (Except.ok (), fsSet (fsRemove fs1 (tmpPath dest)) dest (writeTable t))
  else
    (Except.error WriteError.ioFailure, fsRemove fs (tmpPath dest))

theorem fsGet_fsRemove_ne (fs : FileSys) (p q : String) (h : q ≠ p) :
    fsGet (fsRemove fs p) q = fsGet fs q := by
  induction fs with
  | nil => rfl
  | cons e fs ih =>
      by_cases he : e.1 = p
      · have hq : e.1 ≠ q := fun hc => h (hc.symm.trans he)
        simp [fsRemove, fsGet, he, hq, ih, Ne.symm h]
      · by_cases hq : e.1 = q
        · simp [fsRemove, fsGet, he, hq, h]
        · simp [fsRemove, fsGet, he, hq, ih]

theorem tmpPath_ne (dest : String) : tmpPath dest ≠ dest := by
  intro h
  have hlen := congrArg String.length h
  rw [tmpPath, String.length_append] at hlen
  have h4 : (".tmp" : String).length = 4 := rfl
  omega

/-- C8: the Writer either stores the full serialization of the table at
the destination and reports success, or fails with WriteError; when it
fails, whatever was previously stored at the destination is exactly what
is stored there afterwards, because the write went to the temporary
location and only an atomic rename on success touches the destination. -/
theorem writer_atomic (fs : FileSys) (dest : String) (t : GeoTable)
    (ioOk : Bool) :
    (ioOk = true →
      (toFeatureclass fs dest t ioOk).1 = Except.ok ()
      ∧ fsGet (toFeatureclass fs dest t ioOk).2 dest = some (writeTable t))
    ∧ (ioOk = false →
      (toFeatureclass fs dest t ioOk).1 = Except.error WriteError.ioFailure
      ∧ fsGet (toFeatureclass fs dest t ioOk).2 dest = fsGet fs dest) := by
  constructor
  · intro h
    subst h
    exact ⟨rfl, by simp [toFeatureclass, fsGet, fsSet]⟩
  · intro h
    subst h
    refine ⟨rfl, ?_⟩
    simp only [toFeatureclass, Bool.false_eq_true, if_false]
    exact fsGet_fsRemove_ne fs (tmpPath dest) dest (Ne.symm (tmpPath_ne dest))

/-- Witness for C8 at a concrete file system, destination and table, for
both the succeeding and the failing run. -/
theorem writer_atomic_witness :
    ((toFeatureclass [] "japan_quakes.shp" threeQuakes true).1 = Except.ok ()
      ∧ fsGet (toFeatureclass [] "japan_quakes.shp" threeQuakes true).2
          "japan_quakes.shp" = some (writeTable threeQuakes))
    ∧ ((toFeatureclass [] "japan_quakes.shp" threeQuakes false).1
          = Except.error WriteError.ioFailure
      ∧ fsGet (toFeatureclass [] "japan_quakes.shp" threeQuakes false).2
          "japan_quakes.shp" = fsGet [] "japan_quakes.shp") :=
  ⟨(writer_atomic [] "japan_quakes.shp" threeQuakes true).1 rfl,
    (writer_atomic [] "japan_quakes.shp" threeQuakes false).2 rfl⟩

/-- The error kind for operations that need a linear-unit coordinate
system (spec section 7). -/
inductive GeoError where
  | coordinateSystemMismatch
  deriving DecidableEq, Repr

/-- Modelled from the spec: the buffer operation on a table inspects the
table's CoordinateSystem unit first and fails with
CoordinateSystemMismatch when the system is geographic (degree-based),
before the geometric operation `op` runs (sections 4.3 and 7). -/
def bufferTable (op : Geometry → Geometry) (t : GeoTable) :
    Except GeoError GeoTable :=
  if t.cs.isGeographic then Except.error GeoError.coordinateSystemMismatch
  else Except.ok (replaceShapes op t)

/-- Modelled from the spec: a distance computation over the table likewise
checks the unit of the coordinate system before computing (section 7). -/
def distanceTable (f : Geometry → Geometry → ℚ) (t : GeoTable)
    (ref : Geometry) : Except GeoError (List ℚ) :=
  if t.cs.isGeographic then Except.error GeoError.coordinateSystemMismatch
  else Except.ok (t.rows.filterMap (fun r => r.shape.map (fun g => f g ref)))

/-- C9: on a table whose coordinate system is geographic (degree-based),
buffer and distance operations fail with CoordinateSystemMismatch for
every geometric operation that would have run: the error is decided by
the CoordinateSystem unit alone, before any geometry is touched, and no
numeric result is ever produced. -/
theorem geographic_mismatch_detected (t : GeoTable)
    (op : Geometry → Geometry) (f : Geometry → Geometry → ℚ) (ref : Geometry)
    (h : t.cs.isGeographic = true) :
    bufferTable op t = Except.error GeoError.coordinateSystemMismatch
    ∧ distanceTable f t ref = Except.error GeoError.coordinateSystemMismatch := by
  simp [bufferTable, distanceTable, h]

/-- The WGS84 geographic coordinate system of the notebook's country
boundaries, with units in degrees. -/
def wgs84 : CoordinateSystem := ⟨4326, true⟩

/-- A sample one-row table tagged with the geographic WGS84 system. -/
def countriesWGS : GeoTable :=
  { columns := ["COUNTRY", "SHAPE"],
    rows := [{ attrs := [("COUNTRY", .str "Japan")],
               shape := some (.polygon [[(139, 35), (140, 35), (140, 36)]]) }],
    cs := wgs84 }

/-- Witness for C9 at a concrete geographic table. -/
theorem geographic_mismatch_detected_witness :
    countriesWGS.cs.isGeographic = true
    ∧ (bufferTable id countriesWGS
          = Except.error GeoError.coordinateSystemMismatch
        ∧ distanceTable (fun _ _ => 0) countriesWGS sampleRef
          = Except.error GeoError.coordinateSystemMismatch) :=
  ⟨rfl, geographic_mismatch_detected countriesWGS id (fun _ _ => 0) sampleRef rfl⟩

end GeoPipeline
